import Mathlib

/-!
Verification of the Orion autonomy-graded incident-response core.

This file gives a shallow embedding, in Lean 4, of the Python components of
the Orion repository that the verified properties speak about:

* `core/brain/policy_loader.py`   (`Policies`)
* `core/brain/cooldown_tracker.py` (`CooldownTracker`)
* `core/brain/circuit_breaker.py` (`CircuitBreaker`)
* `core/brain/brain.py`           (`Brain`)
* `core/council/consensus_aggregator.py` (`ConsensusAggregator`)
* `core/commander/commander.py`   (`Commander`)
* `core/approval/approval_coordinator.py` (`Coordinator`)
* `core/guardian/guardian.py`     (`Guardian`)

Modelling conventions, used uniformly:

* Wall-clock / monotonic instants (Python `time.time()` floats and
  `datetime` values) are rationals `ℚ`; the current time is passed
  explicitly to every operation that reads a clock.
* Python dicts that are used as keyed maps are association lists
  `List (key × value)` preserving insertion order (Python 3.7+ dict
  order), or total functions when only get/set is used.
* Freshly generated UUIDs are explicit `String` parameters.
* Message `version` and `timestamp` prefix fields, which are constants or
  pure clock reads, are elided from the contract structures.
* A Python function that publishes to the event bus is modelled as
  returning the list of messages whose publication it attempts, in order.
* Raised exceptions of a modelled collaborator are `Except.error` values.
-/

namespace Orion

/-! ## String helpers (Python `in`, `str.lower`, `str.upper`, `{:.Nf}`) -/

/-- Occurrence of `needle` as a contiguous subsequence of a character list;
this models the Python substring test `needle in hay`. -/
def seqIn (needle : List Char) : List Char → Bool
  | [] => needle.isEmpty
  | c :: t => needle.isPrefixOf (c :: t) || seqIn needle t

/-- Python `needle in hay` on strings. -/
def strContains (hay needle : String) : Bool :=
  seqIn needle.data hay.data

/-- Python `str.lower()` (characterwise, over the character list so that
it computes by structural recursion). -/
def strLower (s : String) : String := ⟨s.data.map Char.toLower⟩

/-- Python `str.upper()`. -/
def strUpper (s : String) : String := ⟨s.data.map Char.toUpper⟩

/-- Python slicing `s[:n]` (by characters). -/
def strTake (s : String) (n : ℕ) : String := ⟨s.data.take n⟩

/-- Python `str.strip()`: drop whitespace from both ends (structural, so
that it computes). -/
def strStrip (s : String) : String :=
  ⟨((s.data.dropWhile Char.isWhitespace).reverse.dropWhile
      Char.isWhitespace).reverse⟩

/-- Round-half-to-even on rationals; models Python float formatting
rounding. -/
def roundHalfEven (q : ℚ) : ℤ :=
  let f := ⌊q⌋
  let frac := q - (f : ℚ)
  if frac < 1/2 then f
  else if frac > 1/2 then f + 1
  else if f % 2 = 0 then f else f + 1

/-- Python `f"{q:.prec f}"` fixed-point formatting of a nonnegative value
(the modelled code only formats nonnegative confidences and remaining
times). -/
def formatFixed (prec : ℕ) (q : ℚ) : String :=
  let scaled := roundHalfEven (q * ((10 : ℚ) ^ prec))
  let m := scaled.natAbs
  let ip := m / 10 ^ prec
  let fp := m % 10 ^ prec
  let fpStr := toString fp
  let pad := String.mk (List.replicate (prec - fpStr.length) '0')
  (if scaled < 0 then "-" else "") ++ toString ip ++ "." ++ pad ++ fpStr

/-! ## Policy loader (`core/brain/policy_loader.py`)

The YAML loading lives outside the model: a `Policies` value is the
in-memory snapshot `(_safe_actions, _risky_actions, _cooldowns)` that
`PolicyLoader._load_policies` produces. -/

structure Policies where
  safeActions : List String
  riskyActions : List String
  cooldowns : List (String × Int)
  deriving DecidableEq

/-- `PolicyLoader.is_safe`. -/
def Policies.is_safe (p : Policies) (actionType : String) : Bool :=
  p.safeActions.contains actionType

/-- `PolicyLoader.is_risky`. -/
def Policies.is_risky (p : Policies) (actionType : String) : Bool :=
  p.riskyActions.contains actionType

/-- `PolicyLoader.classify_action`: SAFE first, then RISKY, else UNKNOWN. -/
def Policies.classify_action (p : Policies) (actionType : String) : String :=
  if p.is_safe actionType then "SAFE"
  else if p.is_risky actionType then "RISKY"
  else "UNKNOWN"

/-- `PolicyLoader.get_cooldown`: `self._cooldowns.get(action_type)`. -/
def Policies.get_cooldown (p : Policies) (actionType : String) : Option Int :=
  (p.cooldowns.find? (fun e => e.1 == actionType)).map Prod.snd

/-! ## Cooldown tracker (`core/brain/cooldown_tracker.py`) -/

structure CooldownTracker where
  lastExecution : String × String → Option ℚ

/-- `CooldownTracker.check_cooldown`: true iff the action may execute. -/
def CooldownTracker.check_cooldown (t : CooldownTracker) (actionType : String)
    (cooldownSeconds : Int) (appliesPerKey : Option String) (now : ℚ) : Bool :=
  if cooldownSeconds = 0 then true
  else
    let key := (actionType, appliesPerKey.getD "")
    match t.lastExecution key with
    | none => true
    | some lastExec => decide ((now - lastExec) ≥ (cooldownSeconds : ℚ))

/-- `CooldownTracker.record_execution`: overwrite the timestamp with `now`. -/
def CooldownTracker.record_execution (t : CooldownTracker) (actionType : String)
    (appliesPerKey : Option String) (now : ℚ) : CooldownTracker :=
  { lastExecution := fun k =>
      if k = (actionType, appliesPerKey.getD "") then some now else t.lastExecution k }

/-- `CooldownTracker.get_remaining_cooldown`. -/
def CooldownTracker.get_remaining_cooldown (t : CooldownTracker) (actionType : String)
    (cooldownSeconds : Int) (appliesPerKey : Option String) (now : ℚ) : ℚ :=
  if cooldownSeconds = 0 then 0
  else
    match t.lastExecution (actionType, appliesPerKey.getD "") with
    | none => 0
    | some lastExec => max 0 ((cooldownSeconds : ℚ) - (now - lastExec))

/-! ## Circuit breaker (`core/brain/circuit_breaker.py`) -/

structure CircuitBreaker where
  failureThreshold : Int
  failureWindow : ℚ
  circuitOpenDuration : ℚ
  failures : String → List ℚ
  circuitOpened : String → Option ℚ

/-- `CircuitBreaker.record_failure`: append `now`, prune entries at or
before `now - failure_window`, open the circuit when the in-window count
reaches the threshold and the circuit is not already open. -/
def CircuitBreaker.record_failure (b : CircuitBreaker) (actionType : String)
    (now : ℚ) : CircuitBreaker :=
  let cutoff := now - b.failureWindow
  let pruned := (b.failures actionType ++ [now]).filter (fun ts => decide (ts > cutoff))
  let failures' := fun a => if a = actionType then pruned else b.failures a
  if (pruned.length : Int) ≥ b.failureThreshold ∧ b.circuitOpened actionType = none then
    { b with failures := failures',
             circuitOpened := fun a =>
               if a = actionType then some now else b.circuitOpened a }
  else
    { b with failures := failures' }

/-- `CircuitBreaker.record_success`: clear the failure list; the open
timestamp is untouched. -/
def CircuitBreaker.record_success (b : CircuitBreaker) (actionType : String) :
    CircuitBreaker :=
  { b with failures := fun a => if a = actionType then [] else b.failures a }

/-- `CircuitBreaker.is_open`: lazily closes an expired circuit; returns
the answer together with the possibly-updated breaker. -/
def CircuitBreaker.is_open (b : CircuitBreaker) (actionType : String) (now : ℚ) :
    Bool × CircuitBreaker :=
  match b.circuitOpened actionType with
  | none => (false, b)
  | some openedAt =>
    if now - openedAt ≥ b.circuitOpenDuration then
      (false,
       { b with
         circuitOpened := fun a => if a = actionType then none else b.circuitOpened a,
         failures := fun a => if a = actionType then [] else b.failures a })
    else
      (true, b)

/-! ## Claim theorems: cooldown tracker, circuit breaker, policy loader -/

/-- C7: for a cooldown `c > 0`, after `record_execution` at time `tRec`,
`check_cooldown` returns `false` at every query time in `[tRec, tRec+c)`
and `true` at or after `tRec + c`; with no recorded execution it returns
`true`. -/
theorem cooldown_window_semantics
    (t : CooldownTracker) (actionType : String) (key : Option String)
    (c : Int) (hc : 0 < c) (tRec q : ℚ) :
    (tRec ≤ q → q - tRec < (c : ℚ) →
      ((t.record_execution actionType key tRec).check_cooldown actionType c key q) = false)
    ∧ ((tRec + (c : ℚ) ≤ q) →
      ((t.record_execution actionType key tRec).check_cooldown actionType c key q) = true)
    ∧ (t.lastExecution (actionType, key.getD "") = none →
      t.check_cooldown actionType c key q = true) := by
  have hc0 : ¬ (c = 0) := by omega
  refine ⟨?_, ?_, ?_⟩
  · intro _hle hlt
    have hnot : ¬ ((c : ℚ) ≤ q - tRec) := by linarith
    simp [CooldownTracker.check_cooldown, CooldownTracker.record_execution, hc0, hnot]
  · intro hge
    have hle : (c : ℚ) ≤ q - tRec := by linarith
    simp [CooldownTracker.check_cooldown, CooldownTracker.record_execution, hc0, hle]
  · intro hnone
    simp only [CooldownTracker.check_cooldown, if_neg hc0, hnone]

def trackerEx : CooldownTracker := ⟨fun _ => none⟩

/-- Witness for C7 at a concrete tracker, cooldown 5, record time 0. -/
theorem cooldown_window_semantics_witness :
    ((trackerEx.record_execution "acknowledge_incident" none 0).check_cooldown
        "acknowledge_incident" 5 none 3) = false
    ∧ ((trackerEx.record_execution "acknowledge_incident" none 0).check_cooldown
        "acknowledge_incident" 5 none 5) = true
    ∧ trackerEx.check_cooldown "acknowledge_incident" 5 none 3 = true :=
  ⟨(cooldown_window_semantics trackerEx "acknowledge_incident" none 5 (by decide) 0 3).1
      (by norm_num) (by norm_num),
   (cooldown_window_semantics trackerEx "acknowledge_incident" none 5 (by decide) 0 5).2.1
      (by norm_num),
   (cooldown_window_semantics trackerEx "acknowledge_incident" none 5 (by decide) 0 3).2.2
      rfl⟩

/-- C6: `is_open` is true iff an open timestamp is recorded and strictly
less than `circuit_open_duration` ago; a query at or past expiry clears
the open timestamp and the failures and returns false; `record_success`
clears failures but never the open timestamp, so the circuit stays open
until the timer expires. -/
theorem circuit_breaker_semantics
    (b : CircuitBreaker) (actionType : String) (now : ℚ) :
    ((b.is_open actionType now).1 = true ↔
       ∃ openedAt, b.circuitOpened actionType = some openedAt ∧
         now - openedAt < b.circuitOpenDuration)
    ∧ (∀ openedAt, b.circuitOpened actionType = some openedAt →
        b.circuitOpenDuration ≤ now - openedAt →
        (b.is_open actionType now).1 = false ∧
        (b.is_open actionType now).2.circuitOpened actionType = none ∧
        (b.is_open actionType now).2.failures actionType = [])
    ∧ ((b.record_success actionType).failures actionType = [] ∧
       (b.record_success actionType).circuitOpened = b.circuitOpened)
    ∧ (∀ openedAt, b.circuitOpened actionType = some openedAt →
        now - openedAt < b.circuitOpenDuration →
        ((b.record_success actionType).is_open actionType now).1 = true) := by
  refine ⟨?_, ?_, ⟨by simp [CircuitBreaker.record_success], rfl⟩, ?_⟩
  · constructor
    · intro h
      cases hop : b.circuitOpened actionType with
      | none => simp [CircuitBreaker.is_open, hop] at h
      | some openedAt =>
        simp only [CircuitBreaker.is_open, hop] at h
        by_cases hd : b.circuitOpenDuration ≤ now - openedAt
        · simp [hd] at h
        · exact ⟨openedAt, rfl, by linarith [not_le.mp hd]⟩
    · rintro ⟨openedAt, hop, hlt⟩
      have hd : ¬ (b.circuitOpenDuration ≤ now - openedAt) := by linarith
      simp [CircuitBreaker.is_open, hop, hd]
  · intro openedAt hop hge
    have hd : b.circuitOpenDuration ≤ now - openedAt := hge
    simp [CircuitBreaker.is_open, hop, hd]
  · intro openedAt hop hlt
    have hd : ¬ (b.circuitOpenDuration ≤ now - openedAt) := by linarith
    simp [CircuitBreaker.is_open, CircuitBreaker.record_success, hop, hd]

def breakerEx : CircuitBreaker :=
  { failureThreshold := 3, failureWindow := 300, circuitOpenDuration := 600,
    failures := fun _ => [50, 80, 100],
    circuitOpened := fun a => if a = "acknowledge_incident" then some 100 else none }

/-- Witness for C6 at a concrete breaker opened at time 100 with duration
600, queried at 200 (open) and 800 (expired). -/
theorem circuit_breaker_semantics_witness :
    (breakerEx.is_open "acknowledge_incident" 200).1 = true
    ∧ ((breakerEx.is_open "acknowledge_incident" 800).1 = false ∧
       (breakerEx.is_open "acknowledge_incident" 800).2.circuitOpened
         "acknowledge_incident" = none ∧
       (breakerEx.is_open "acknowledge_incident" 800).2.failures
         "acknowledge_incident" = [])
    ∧ ((breakerEx.record_success "acknowledge_incident").failures
         "acknowledge_incident" = [] ∧
       (breakerEx.record_success "acknowledge_incident").circuitOpened =
         breakerEx.circuitOpened)
    ∧ ((breakerEx.record_success "acknowledge_incident").is_open
         "acknowledge_incident" 200).1 = true :=
  ⟨(circuit_breaker_semantics breakerEx "acknowledge_incident" 200).1.mpr
      ⟨100, by norm_num [breakerEx], by norm_num [breakerEx]⟩,
   (circuit_breaker_semantics breakerEx "acknowledge_incident" 800).2.1 100
      (by norm_num [breakerEx]) (by norm_num [breakerEx]),
   (circuit_breaker_semantics breakerEx "acknowledge_incident" 800).2.2.1,
   (circuit_breaker_semantics breakerEx "acknowledge_incident" 200).2.2.2 100
      (by norm_num [breakerEx]) (by norm_num [breakerEx])⟩

/-- C9: an action type listed both SAFE and RISKY classifies as SAFE
(the SAFE set is consulted first), and `is_safe` holds for it. -/
theorem safe_wins_on_overlap (p : Policies) (a : String)
    (hs : a ∈ p.safeActions) (hr : a ∈ p.riskyActions) :
    p.classify_action a = "SAFE" ∧ p.is_safe a = true := by
  have h : p.is_safe a = true := by
    simpa [Policies.is_safe] using hs
  exact ⟨by simp [Policies.classify_action, h], h⟩

def policiesEx : Policies :=
  { safeActions := ["restart_service"], riskyActions := ["restart_service"],
    cooldowns := [] }

/-- Witness for C9 at a policy snapshot listing `restart_service` on both
sides. -/
theorem safe_wins_on_overlap_witness :
    policiesEx.classify_action "restart_service" = "SAFE"
    ∧ policiesEx.is_safe "restart_service" = true :=
  safe_wins_on_overlap policiesEx "restart_service" (by decide) (by decide)

/-! ## Brain (`core/brain/brain.py`)

Contract structures carry the payload fields the pipeline inspects; the
constant `version` field and the pure clock-read `timestamp` field are
elided (see the header conventions). -/

structure Incident where
  incident_id : String
  incident_type : String
  severity : String
  event_ids : List String
  window_start : ℚ
  window_end : ℚ
  state : String
  description : String
  deriving DecidableEq

/-- The `proposed_action` sub-dict `{action_type, parameters: {incident_id}}`. -/
structure ProposedAction where
  action_type : String
  parameters_incident_id : String
  deriving DecidableEq

structure Decision where
  decision_id : String
  source : String
  incident_id : String
  decision_type : String
  safety_classification : String
  requires_approval : Bool
  reasoning : String
  autonomy_level : String
  proposed_action : Option ProposedAction
  deriving DecidableEq

structure ApprovalRequest where
  approval_request_id : String
  source : String
  decision_id : String
  action_type : String
  risk_level : String
  requested_action_action_type : String
  requested_action_parameters_incident_id : String
  requested_action_reasoning : String
  expires_at : ℚ
  incident_id : String
  deriving DecidableEq

/-- The Brain configuration fixed at construction.  `councilConfigured`
models `council is not None`; `validatorsConfigured` models
`council_validator is not None and external_validator is not None`.  The
mutable cooldown tracker and circuit breaker it owns are threaded
explicitly through `decide`. -/
structure Brain where
  autonomy_level : String
  source_name : String
  approval_timeout : Int
  policy : Policies
  councilConfigured : Bool
  validatorsConfigured : Bool

/-- `Brain._create_decision` (fresh UUID passed as `did`). -/
def Brain.create_decision (b : Brain) (inc : Incident) (decisionType : String)
    (reasoning : String) (safetyClassification : String) (did : String) : Decision :=
  { decision_id := did
    source := b.source_name
    incident_id := inc.incident_id
    decision_type := decisionType
    safety_classification := safetyClassification
    requires_approval := false
    reasoning := reasoning
    autonomy_level := b.autonomy_level
    proposed_action := none }

/-- `Brain._generate_reasoning_n0`. -/
def Brain.generate_reasoning_n0 (inc : Incident) : String :=
  "N0 mode (observe only): Detected " ++ inc.incident_type ++
  " (severity=" ++ inc.severity ++ ", events=" ++ toString inc.event_ids.length ++
  "). No action taken as per autonomy level N0 policy."

/-- `Brain._determine_action_type`: `acknowledge_incident` for medium,
high or critical severity; nothing otherwise. -/
def Brain.determine_action_type (inc : Incident) : Option String :=
  if ["medium", "high", "critical"].contains inc.severity then
    some "acknowledge_incident"
  else
    none

/-- Result of one `decide` call: the decision, the approval requests whose
publication was attempted during the call, and the updated cooldown
tracker and circuit breaker. -/
structure DecideResult where
  decision : Decision
  approvalRequests : List ApprovalRequest
  cooldowns : CooldownTracker
  breaker : CircuitBreaker

/-- `Brain._decide_n0`: always NO_ACTION / SAFE. -/
def Brain.decide_n0 (b : Brain) (cool : CooldownTracker) (brk : CircuitBreaker)
    (inc : Incident) (did : String) : DecideResult :=
  ⟨b.create_decision inc "NO_ACTION" (Brain.generate_reasoning_n0 inc) "SAFE" did,
   [], cool, brk⟩

/-- Python truthiness of the `Optional[int]` cooldown (`if cooldown:`):
false for `None` and for `0`. -/
def cooldownTruthy : Option Int → Bool
  | none => false
  | some c => c != 0

/-- `Brain._decide_n2`. -/
def Brain.decide_n2 (b : Brain) (cool : CooldownTracker) (brk : CircuitBreaker)
    (inc : Incident) (now : ℚ) (did : String) : DecideResult :=
  match Brain.determine_action_type inc with
  | none =>
    ⟨b.create_decision inc "NO_ACTION"
      ("N2 mode: Incident " ++ inc.incident_type ++ " detected but no action required (severity=" ++ inc.severity ++ ").")
      "SAFE" did, [], cool, brk⟩
  | some actionType =>
    let classification := b.policy.classify_action actionType
    if classification = "RISKY" then
      ⟨b.create_decision inc "NO_ACTION"
        ("N2 mode: Action " ++ actionType ++ " is RISKY and requires approval. No approval mechanism available. No action taken.")
        "RISKY" did, [], cool, brk⟩
    else if classification = "UNKNOWN" then
      ⟨b.create_decision inc "NO_ACTION"
        ("N2 mode: Action " ++ actionType ++ " classification unknown. Treating as RISKY. No action taken.")
        "UNKNOWN" did, [], cool, brk⟩
    else
      let cooldown := b.policy.get_cooldown actionType
      if cooldownTruthy cooldown &&
          !(cool.check_cooldown actionType (cooldown.getD 0) none now) then
        let remaining := cool.get_remaining_cooldown actionType (cooldown.getD 0) none now
        ⟨b.create_decision inc "NO_ACTION"
          ("N2 mode: Action " ++ actionType ++ " is SAFE but in cooldown (" ++ formatFixed 1 remaining ++ "s remaining). No action taken.")
          "SAFE" did, [], cool, brk⟩
      else
        let opened := brk.is_open actionType now
        if opened.1 then
          ⟨b.create_decision inc "NO_ACTION"
            ("N2 mode: Action " ++ actionType ++ " circuit breaker is OPEN (too many recent failures). No action taken.")
            "SAFE" did, [], cool, opened.2⟩
        else
          let d0 := b.create_decision inc "EXECUTE_SAFE_ACTION"
            ("N2 mode: Executing SAFE action " ++ actionType ++ " for incident " ++ inc.incident_type ++ " (severity=" ++ inc.severity ++ ").")
            "SAFE" did
          let d := { d0 with proposed_action := some ⟨actionType, inc.incident_id⟩ }
          let cool' := if cooldownTruthy cooldown then
              cool.record_execution actionType none now
            else cool
          ⟨d, [], cool', opened.2⟩

/-- `Brain._emit_approval_request` (fresh UUID passed as `reqId`); returns
the approval-request message whose publication is attempted.  The decision
always carries `proposed_action` at the call site; a missing one would
raise in Python and is modelled as no message. -/
def Brain.emit_approval_request (b : Brain) (d : Decision) (inc : Incident)
    (now : ℚ) (reqId : String) : Option ApprovalRequest :=
  d.proposed_action.map fun pa =>
    { approval_request_id := reqId
      source := b.source_name
      decision_id := d.decision_id
      action_type := pa.action_type
      risk_level := "RISKY"
      requested_action_action_type := pa.action_type
      requested_action_parameters_incident_id := pa.parameters_incident_id
      requested_action_reasoning := d.reasoning
      expires_at := now + (b.approval_timeout : ℚ)
      incident_id := inc.incident_id }

/-- `Brain._decide_n3`: UNKNOWN is coerced to RISKY; RISKY requests
approval and emits the sibling approval request; SAFE follows the N2
path. -/
def Brain.decide_n3 (b : Brain) (cool : CooldownTracker) (brk : CircuitBreaker)
    (inc : Incident) (now : ℚ) (did reqId : String) : DecideResult :=
  match Brain.determine_action_type inc with
  | none =>
    ⟨b.create_decision inc "NO_ACTION"
      ("N3 mode: Incident " ++ inc.incident_type ++ " detected but no action required (severity=" ++ inc.severity ++ ").")
      "SAFE" did, [], cool, brk⟩
  | some actionType =>
    let classification0 := b.policy.classify_action actionType
    let classification := if classification0 = "UNKNOWN" then "RISKY" else classification0
    if classification = "RISKY" then
      let d0 := b.create_decision inc "REQUEST_APPROVAL"
        ("N3 mode: Action " ++ actionType ++ " is RISKY and requires ADMIN approval before execution.")
        "RISKY" did
      let d := { d0 with
        requires_approval := true
        proposed_action := some ⟨actionType, inc.incident_id⟩ }
      ⟨d, (b.emit_approval_request d inc now reqId).toList, cool, brk⟩
    else
      let cooldown := b.policy.get_cooldown actionType
      if cooldownTruthy cooldown &&
          !(cool.check_cooldown actionType (cooldown.getD 0) none now) then
        let remaining := cool.get_remaining_cooldown actionType (cooldown.getD 0) none now
        ⟨b.create_decision inc "NO_ACTION"
          ("N3 mode: Action " ++ actionType ++ " is SAFE but in cooldown (" ++ formatFixed 1 remaining ++ "s remaining). No action taken.")
          "SAFE" did, [], cool, brk⟩
      else
        let opened := brk.is_open actionType now
        if opened.1 then
          ⟨b.create_decision inc "NO_ACTION"
            ("N3 mode: Action " ++ actionType ++ " circuit breaker is OPEN (too many recent failures). No action taken.")
            "SAFE" did, [], cool, opened.2⟩
        else
          let d0 := b.create_decision inc "EXECUTE_SAFE_ACTION"
            ("N3 mode: Executing SAFE action " ++ actionType ++ " for incident " ++ inc.incident_type ++ " (severity=" ++ inc.severity ++ ").")
            "SAFE" did
          let d := { d0 with proposed_action := some ⟨actionType, inc.incident_id⟩ }
          let cool' := if cooldownTruthy cooldown then
              cool.record_execution actionType none now
            else cool
          ⟨d, [], cool', opened.2⟩

/-- `Brain.decide`: dispatch on the autonomy level, N0 as the fail-closed
default. -/
def Brain.decide (b : Brain) (cool : CooldownTracker) (brk : CircuitBreaker)
    (inc : Incident) (now : ℚ) (did reqId : String) : DecideResult :=
  if b.autonomy_level = "N0" then b.decide_n0 cool brk inc did
  else if b.autonomy_level = "N2" then b.decide_n2 cool brk inc now did
  else if b.autonomy_level = "N3" then b.decide_n3 cool brk inc now did reqId
  else b.decide_n0 cool brk inc did

/-- Outcome of the Council validation call
`asyncio.run(council.validate_decision(...))`: `Except.error e` models a
raised exception whose `type(e).__name__` is `e`; `Except.ok` carries the
returned `(result, confidence, critique)` triple. -/
abbrev CouncilCallResult := Except String (String × ℚ × String)

/-- `Brain._validate_with_council`: skip when the Council or its
validators are missing; on BLOCKED or on any exception, mutate to
NO_ACTION, prefix the reasoning, and strip `proposed_action`; otherwise
return the decision unchanged. -/
def Brain.validate_with_council (b : Brain) (councilResult : CouncilCallResult)
    (d : Decision) : Decision :=
  if !b.councilConfigured then d
  else if !b.validatorsConfigured then d
  else
    match councilResult with
    | .error e =>
      { d with
        decision_type := "NO_ACTION"
        reasoning := "BLOCKED BY COUNCIL: Validation error (" ++ e ++ "). Original reasoning: " ++ d.reasoning
        proposed_action := none }
    | .ok (result, _confidence, critique) =>
      if result = "BLOCKED" then
        { d with
          decision_type := "NO_ACTION"
          reasoning := "BLOCKED BY COUNCIL: " ++ critique ++ ". Original reasoning: " ++ d.reasoning
          proposed_action := none }
      else d

/-- A message published by the Brain while handling one incident. -/
inductive PubMsg where
  | approvalRequest (r : ApprovalRequest)
  | decision (d : Decision)
  deriving DecidableEq

/-- `Brain.handle_incident`: decide (which may already publish approval
requests), validate with the Council, then publish the decision.  Returns
the publications attempted, in order, and the updated state. -/
def Brain.handle_incident (b : Brain) (cool : CooldownTracker) (brk : CircuitBreaker)
    (inc : Incident) (councilResult : CouncilCallResult) (now : ℚ)
    (did reqId : String) : List PubMsg × CooldownTracker × CircuitBreaker :=
  let r := b.decide cool brk inc now did reqId
  let d := b.validate_with_council councilResult r.decision
  (r.approvalRequests.map PubMsg.approvalRequest ++ [PubMsg.decision d],
   r.cooldowns, r.breaker)

/-! ## Claim theorems: Brain -/

theorem seqIn_nil_left (l : List Char) : seqIn [] l = true := by
  cases l <;> simp [seqIn, List.isPrefixOf]

theorem seqIn_append_left (n h t : List Char) (hh : seqIn n h = true) :
    seqIn n (h ++ t) = true := by
  induction h with
  | nil =>
    simp only [seqIn, List.isEmpty_iff] at hh
    subst hh
    simpa using seqIn_nil_left t
  | cons c h ih =>
    simp only [seqIn, Bool.or_eq_true] at hh ⊢
    rcases hh with hp | hrest
    · left
      have hpre : (c :: h) <+: (c :: h) ++ t := List.prefix_append _ _
      have := (List.isPrefixOf_iff_prefix.mp hp).trans hpre
      simpa using List.isPrefixOf_iff_prefix.mpr this
    · right
      simpa using ih hrest

theorem strContains_append_left (h t n : String) (hh : strContains h n = true) :
    strContains (h ++ t) n = true := by
  unfold strContains at hh ⊢
  rw [String.data_append]
  exact seqIn_append_left _ _ _ hh

/-- C1: with autonomy level N0 every incident yields a NO_ACTION / SAFE
decision whose reasoning mentions "N0" and "observe only" and which
carries no `proposed_action`. -/
theorem brain_n0_always_no_action (b : Brain) (cool : CooldownTracker)
    (brk : CircuitBreaker) (inc : Incident) (now : ℚ) (did reqId : String)
    (h : b.autonomy_level = "N0") :
    (b.decide cool brk inc now did reqId).decision.decision_type = "NO_ACTION"
    ∧ (b.decide cool brk inc now did reqId).decision.safety_classification = "SAFE"
    ∧ (b.decide cool brk inc now did reqId).decision.proposed_action = none
    ∧ strContains (b.decide cool brk inc now did reqId).decision.reasoning "N0" = true
    ∧ strContains (b.decide cool brk inc now did reqId).decision.reasoning
        "observe only" = true := by
  have hd : b.decide cool brk inc now did reqId = b.decide_n0 cool brk inc did := by
    simp [Brain.decide, h]
  rw [hd]
  refine ⟨rfl, rfl, rfl, ?_, ?_⟩
  · show strContains (Brain.generate_reasoning_n0 inc) "N0" = true
    unfold Brain.generate_reasoning_n0
    refine strContains_append_left _ _ _ ?_
    refine strContains_append_left _ _ _ ?_
    refine strContains_append_left _ _ _ ?_
    refine strContains_append_left _ _ _ ?_
    refine strContains_append_left _ _ _ ?_
    exact strContains_append_left _ _ _ (by decide)
  · show strContains (Brain.generate_reasoning_n0 inc) "observe only" = true
    unfold Brain.generate_reasoning_n0
    refine strContains_append_left _ _ _ ?_
    refine strContains_append_left _ _ _ ?_
    refine strContains_append_left _ _ _ ?_
    refine strContains_append_left _ _ _ ?_
    refine strContains_append_left _ _ _ ?_
    exact strContains_append_left _ _ _ (by decide)

def brainN0Ex : Brain :=
  { autonomy_level := "N0", source_name := "orion-brain", approval_timeout := 300,
    policy := policiesEx, councilConfigured := false, validatorsConfigured := false }

def incidentEx : Incident :=
  { incident_id := "i1", incident_type := "service_outage", severity := "critical",
    event_ids := ["e1"], window_start := 0, window_end := 60, state := "open",
    description := "Correlated 1 event(s): service_outage" }

/-- Witness for C1 at a concrete N0 brain and a critical incident. -/
theorem brain_n0_always_no_action_witness :
    (brainN0Ex.decide trackerEx breakerEx incidentEx 0 "d1" "r1").decision.decision_type
      = "NO_ACTION"
    ∧ (brainN0Ex.decide trackerEx breakerEx incidentEx 0 "d1" "r1").decision.safety_classification
      = "SAFE"
    ∧ (brainN0Ex.decide trackerEx breakerEx incidentEx 0 "d1" "r1").decision.proposed_action
      = none
    ∧ strContains
        (brainN0Ex.decide trackerEx breakerEx incidentEx 0 "d1" "r1").decision.reasoning
        "N0" = true
    ∧ strContains
        (brainN0Ex.decide trackerEx breakerEx incidentEx 0 "d1" "r1").decision.reasoning
        "observe only" = true :=
  brain_n0_always_no_action brainN0Ex trackerEx breakerEx incidentEx 0 "d1" "r1" rfl

/-- C5: with a Council configured (validators present), a BLOCKED
validation result, or a raised validation error, turns the decision into
NO_ACTION with the reasoning prefixed by "BLOCKED BY COUNCIL: " and the
critique (or error description) followed by "Original reasoning: " and
the original reasoning, and strips `proposed_action`. -/
theorem council_block_fail_closed (b : Brain) (d : Decision)
    (hc : b.councilConfigured = true) (hv : b.validatorsConfigured = true) :
    (∀ confidence critique,
      b.validate_with_council (.ok ("BLOCKED", confidence, critique)) d =
        { d with
          decision_type := "NO_ACTION"
          reasoning := "BLOCKED BY COUNCIL: " ++ critique ++ ". Original reasoning: " ++ d.reasoning
          proposed_action := none })
    ∧ (∀ e,
      b.validate_with_council (.error e) d =
        { d with
          decision_type := "NO_ACTION"
          reasoning := "BLOCKED BY COUNCIL: Validation error (" ++ e ++ "). Original reasoning: " ++ d.reasoning
          proposed_action := none }) := by
  constructor
  · intro confidence critique
    simp [Brain.validate_with_council, hc, hv]
  · intro e
    simp [Brain.validate_with_council, hc, hv]

def brainCouncilEx : Brain :=
  { autonomy_level := "N3", source_name := "orion-brain", approval_timeout := 300,
    policy := policiesEx, councilConfigured := true, validatorsConfigured := true }

def decisionEx : Decision :=
  { decision_id := "d1", source := "orion-brain", incident_id := "i1",
    decision_type := "EXECUTE_SAFE_ACTION", safety_classification := "SAFE",
    requires_approval := false, reasoning := "base reasoning of the brain",
    autonomy_level := "N3",
    proposed_action := some ⟨"acknowledge_incident", "i1"⟩ }

/-- Witness for C5 at a concrete blocked validation and a concrete raised
error. -/
theorem council_block_fail_closed_witness :
    brainCouncilEx.validate_with_council (.ok ("BLOCKED", 9/10, "This is dangerous")) decisionEx
      = { decisionEx with
          decision_type := "NO_ACTION"
          reasoning := "BLOCKED BY COUNCIL: This is dangerous. Original reasoning: " ++ decisionEx.reasoning
          proposed_action := none }
    ∧ brainCouncilEx.validate_with_council (.error "ValueError") decisionEx
      = { decisionEx with
          decision_type := "NO_ACTION"
          reasoning := "BLOCKED BY COUNCIL: Validation error (ValueError). Original reasoning: " ++ decisionEx.reasoning
          proposed_action := none } :=
  ⟨(council_block_fail_closed brainCouncilEx decisionEx rfl rfl).1 (9/10) "This is dangerous",
   (council_block_fail_closed brainCouncilEx decisionEx rfl rfl).2 "ValueError"⟩

/-- C10: in N3, for an incident whose chosen action classifies RISKY or
UNKNOWN, the sibling approval request is published during the decide step
and the Council validates only afterwards: even when the Council blocks
(turning the published decision into NO_ACTION), the publication list
still starts with the approval request, which is not retracted. -/
theorem n3_approval_request_survives_council_block
    (b : Brain) (cool : CooldownTracker) (brk : CircuitBreaker) (inc : Incident)
    (now : ℚ) (did reqId : String) (confidence : ℚ) (critique : String)
    (hlvl : b.autonomy_level = "N3")
    (hc : b.councilConfigured = true) (hv : b.validatorsConfigured = true)
    (hsev : ["medium", "high", "critical"].contains inc.severity = true)
    (hclass : b.policy.classify_action "acknowledge_incident" = "RISKY" ∨
              b.policy.classify_action "acknowledge_incident" = "UNKNOWN") :
    (b.handle_incident cool brk inc (.ok ("BLOCKED", confidence, critique)) now did reqId).1
      = [PubMsg.approvalRequest
          { approval_request_id := reqId
            source := b.source_name
            decision_id := did
            action_type := "acknowledge_incident"
            risk_level := "RISKY"
            requested_action_action_type := "acknowledge_incident"
            requested_action_parameters_incident_id := inc.incident_id
            requested_action_reasoning := "N3 mode: Action acknowledge_incident is RISKY and requires ADMIN approval before execution."
            expires_at := now + (b.approval_timeout : ℚ)
            incident_id := inc.incident_id },
         PubMsg.decision
          { decision_id := did
            source := b.source_name
            incident_id := inc.incident_id
            decision_type := "NO_ACTION"
            safety_classification := "RISKY"
            requires_approval := true
            reasoning := "BLOCKED BY COUNCIL: " ++ critique ++ ". Original reasoning: " ++ "N3 mode: Action acknowledge_incident is RISKY and requires ADMIN approval before execution."
            autonomy_level := b.autonomy_level
            proposed_action := none }] := by
  have hstep : b.decide cool brk inc now did reqId =
      b.decide_n3 cool brk inc now did reqId := by
    simp [Brain.decide, hlvl]
  have hact : Brain.determine_action_type inc = some "acknowledge_incident" := by
    unfold Brain.determine_action_type
    rw [hsev]
    simp
  unfold Brain.handle_incident
  rw [hstep]
  unfold Brain.decide_n3
  rw [hact]
  rcases hclass with hcl | hcl <;>
    simp [hcl, Brain.validate_with_council, hc, hv, Brain.emit_approval_request,
      Brain.create_decision]

def brainN3RiskyEx : Brain :=
  { autonomy_level := "N3", source_name := "orion-brain", approval_timeout := 300,
    policy := { safeActions := [], riskyActions := ["acknowledge_incident"],
                cooldowns := [] },
    councilConfigured := true, validatorsConfigured := true }

/-- Witness for C10 at a concrete N3 brain whose policy lists
`acknowledge_incident` as RISKY and a Council that blocks. -/
theorem n3_approval_request_survives_council_block_witness :
    (brainN3RiskyEx.handle_incident trackerEx breakerEx incidentEx
        (.ok ("BLOCKED", 1/2, "unsafe")) 0 "d1" "r1").1
      = [PubMsg.approvalRequest
          { approval_request_id := "r1"
            source := brainN3RiskyEx.source_name
            decision_id := "d1"
            action_type := "acknowledge_incident"
            risk_level := "RISKY"
            requested_action_action_type := "acknowledge_incident"
            requested_action_parameters_incident_id := incidentEx.incident_id
            requested_action_reasoning := "N3 mode: Action acknowledge_incident is RISKY and requires ADMIN approval before execution."
            expires_at := 0 + ((300 : Int) : ℚ)
            incident_id := incidentEx.incident_id },
         PubMsg.decision
          { decision_id := "d1"
            source := brainN3RiskyEx.source_name
            incident_id := incidentEx.incident_id
            decision_type := "NO_ACTION"
            safety_classification := "RISKY"
            requires_approval := true
            reasoning := "BLOCKED BY COUNCIL: " ++ "unsafe" ++ ". Original reasoning: " ++ "N3 mode: Action acknowledge_incident is RISKY and requires ADMIN approval before execution."
            autonomy_level := brainN3RiskyEx.autonomy_level
            proposed_action := none }] :=
  n3_approval_request_survives_council_block brainN3RiskyEx trackerEx breakerEx
    incidentEx 0 "d1" "r1" (1/2) "unsafe" rfl rfl rfl (by decide) (.inl rfl)

/-! ## Consensus aggregator (`core/council/consensus_aggregator.py`)

Confidences are rationals (Python floats).  The async validator calls of
`validate_decision` are modelled by their observed results: the local
call as an `Except` of a `(confidence, critique)` pair, the external
`validate_parallel` call as an `Except` of the result list. -/

def APPROVE_KEYWORDS : List String :=
  ["approve", "approved", "safe", "correct", "valid", "agree", "confident"]

def BLOCK_KEYWORDS : List String :=
  ["block", "blocked", "unsafe", "risky", "concern", "reject", "invalid", "dangerous", "error"]

def SAFETY_KEYWORDS : List String :=
  ["unsafe", "risky", "concern", "dangerous", "violation", "hazard"]

structure ConsensusAggregator where
  confidence_threshold : ℚ
  safety_veto_threshold : ℚ

/-- `ConsensusAggregator._parse_critique_vote`: block keywords first, then
approve keywords, defaulting to block (0). -/
def ConsensusAggregator.parse_critique_vote (critique : String) : ℚ :=
  let critiqueLower := strLower critique
  if BLOCK_KEYWORDS.any (fun k => strContains critiqueLower k) then 0
  else if APPROVE_KEYWORDS.any (fun k => strContains critiqueLower k) then 1
  else 0

/-- `ConsensusAggregator._has_safety_concern`. -/
def ConsensusAggregator.has_safety_concern (critique : String) : Bool :=
  SAFETY_KEYWORDS.any (fun k => strContains (strLower critique) k)

/-- `ConsensusAggregator.aggregate_votes`: drop zero-confidence entries,
then compare the confidence-weighted vote average with the threshold. -/
def ConsensusAggregator.aggregate_votes (agg : ConsensusAggregator)
    (validations : List (ℚ × String)) : String × ℚ × String :=
  if validations.isEmpty then ("BLOCKED", 0, "No validations provided")
  else
    let valid := validations.filter (fun v => decide (v.1 > 0))
    if valid.isEmpty then
      let combined := String.intercalate "; " (validations.map Prod.snd)
      ("BLOCKED", 0, "All validators failed: " ++ combined)
    else
      let totalWeight := (valid.map Prod.fst).sum
      let weightedSum :=
        (valid.map (fun v => v.1 * ConsensusAggregator.parse_critique_vote v.2)).sum
      let weightedAvg := if totalWeight > 0 then weightedSum / totalWeight else 0
      let combinedCritique := String.intercalate " | "
        (valid.map (fun v => "[" ++ formatFixed 2 v.1 ++ "] " ++ strTake v.2 100))
      if weightedAvg ≥ agg.confidence_threshold then
        ("APPROVED", weightedAvg, combinedCritique)
      else
        ("BLOCKED", weightedAvg, combinedCritique)

/-- The veto reason string built at 1-based validator position `i + 1`. -/
def vetoReason (i : ℕ) (confidence : ℚ) (critique : String) : String :=
  "BLOCKED: Safety veto triggered by validator " ++ toString (i + 1) ++
  " (confidence=" ++ formatFixed 2 confidence ++ "): " ++ strTake critique 100

/-- Scan of `ConsensusAggregator.safety_veto` from position `i`. -/
def vetoScan (threshold : ℚ) : ℕ → List (ℚ × String) → Option String
  | _, [] => none
  | i, (confidence, critique) :: rest =>
    if confidence ≥ threshold ∧ ConsensusAggregator.has_safety_concern critique then
      some (vetoReason i confidence critique)
    else
      vetoScan threshold (i + 1) rest

/-- `ConsensusAggregator.safety_veto`: the first high-confidence safety
concern produces the veto reason. -/
def ConsensusAggregator.safety_veto (agg : ConsensusAggregator)
    (validations : List (ℚ × String)) : Option String :=
  vetoScan agg.safety_veto_threshold 0 validations

/-- `ConsensusAggregator.should_escalate`. -/
def ConsensusAggregator.should_escalate (agg : ConsensusAggregator)
    (localConfidence : ℚ) (decisionClassification : String) : Bool :=
  decide (localConfidence < agg.confidence_threshold) ||
    (strUpper decisionClassification == "RISKY")

/-- The list of `(confidence, critique)` tuples `validate_decision`
records over stages 1 and 2: the local result (stage 1, tagged
`[Local]`, errors becoming `(0, [Local] ERROR: …)`), then, when
escalation applies, the external results (tagged `[Claude]` / `[OpenAI]`
by position, a raised error becoming `(0, [External] ERROR: …)`). -/
def recordedValidations (agg : ConsensusAggregator)
    (classification : String)
    (localResult : Except String (ℚ × String))
    (externalResults : Except String (List (ℚ × String))) : List (ℚ × String) :=
  let localPart : List (ℚ × String) :=
    match localResult with
    | .ok (c, t) => [(c, "[Local] " ++ t)]
    | .error e => [(0, "[Local] ERROR: " ++ e)]
  let localConfidence : ℚ :=
    match localResult with
    | .ok (c, _) => c
    | .error _ => 0
  if agg.should_escalate localConfidence classification then
    localPart ++
      match externalResults with
      | .ok rs => rs.enum.map (fun p =>
          (p.2.1, "[" ++ (if p.1 = 0 then "Claude" else "OpenAI") ++ "] " ++ p.2.2))
      | .error e => [(0, "[External] ERROR: " ++ e)]
  else localPart

/-- `ConsensusAggregator.validate_decision` (staged validation): record
local and, if escalating, external results; apply the safety veto; then
aggregate, with the final RISKY moderate-confidence override to
ESCALATE_TO_ADMIN.  `classification` is the decision's
`safety_classification` field. -/
def ConsensusAggregator.validate_decision (agg : ConsensusAggregator)
    (classification : String)
    (localResult : Except String (ℚ × String))
    (externalResults : Except String (List (ℚ × String))) : String × ℚ × String :=
  let allValidations := recordedValidations agg classification localResult externalResults
  match agg.safety_veto allValidations with
  | some reason => ("BLOCKED", 0, reason)
  | none =>
    let r := agg.aggregate_votes allValidations
    if r.1 = "APPROVED" ∧ strUpper classification = "RISKY" ∧ r.2.1 < (9 : ℚ) / 10 then
      ("ESCALATE_TO_ADMIN", r.2.1, r.2.2)
    else r

/-! ## Claim theorem: safety veto dominance -/

theorem vetoScan_isSome (threshold : ℚ) :
    ∀ (l : List (ℚ × String)) (i : ℕ),
    (∃ v ∈ l, threshold ≤ v.1 ∧ ConsensusAggregator.has_safety_concern v.2 = true) →
    ∃ reason, vetoScan threshold i l = some reason := by
  intro l
  induction l with
  | nil => intro i h; simp at h
  | cons v rest ih =>
    intro i h
    by_cases hv : v.1 ≥ threshold ∧ ConsensusAggregator.has_safety_concern v.2
    · exact ⟨vetoReason i v.1 v.2, by simp [vetoScan, hv]⟩
    · rcases h with ⟨w, hw, hwt, hwc⟩
      rcases List.mem_cons.mp hw with rfl | hwrest
      · exact absurd ⟨hwt, hwc⟩ hv
      · rcases ih (i + 1) ⟨w, hwrest, hwt, hwc⟩ with ⟨reason, hr⟩
        exact ⟨reason, by simp [vetoScan, hv, hr]⟩

/-- C4: if any recorded validation tuple reaches the safety-veto
threshold with a safety-concern critique, staged validation returns
`("BLOCKED", 0.0, veto reason)` — the veto reason produced by
`safety_veto`, not the weighted aggregation. -/
theorem safety_veto_dominates (agg : ConsensusAggregator)
    (classification : String)
    (localResult : Except String (ℚ × String))
    (externalResults : Except String (List (ℚ × String)))
    (h : ∃ v ∈ recordedValidations agg classification localResult externalResults,
      agg.safety_veto_threshold ≤ v.1 ∧
      ConsensusAggregator.has_safety_concern v.2 = true) :
    ∃ reason,
      agg.validate_decision classification localResult externalResults
        = ("BLOCKED", 0, reason)
      ∧ agg.safety_veto
          (recordedValidations agg classification localResult externalResults)
        = some reason := by
  rcases vetoScan_isSome agg.safety_veto_threshold _ 0 h with ⟨reason, hr⟩
  refine ⟨reason, ?_, hr⟩
  simp only [ConsensusAggregator.validate_decision, ConsensusAggregator.safety_veto, hr]

def aggregatorEx : ConsensusAggregator :=
  { confidence_threshold := 7/10, safety_veto_threshold := 8/10 }

/-- Witness for C4: a local validator answering
`(0.9, "This is dangerous and unsafe")` triggers the veto. -/
theorem safety_veto_dominates_witness :
    ∃ reason,
      aggregatorEx.validate_decision "SAFE"
          (.ok (9/10, "This is dangerous and unsafe")) (.ok [])
        = ("BLOCKED", 0, reason)
      ∧ aggregatorEx.safety_veto
          (recordedValidations aggregatorEx "SAFE"
            (.ok (9/10, "This is dangerous and unsafe")) (.ok []))
        = some reason :=
  safety_veto_dominates aggregatorEx "SAFE"
    (.ok (9/10, "This is dangerous and unsafe")) (.ok [])
    ⟨((9:ℚ)/10, "[Local] " ++ "This is dangerous and unsafe"),
      by
        have hlist : recordedValidations aggregatorEx "SAFE"
            (.ok (9/10, "This is dangerous and unsafe")) (.ok [])
            = [((9:ℚ)/10, "[Local] " ++ "This is dangerous and unsafe")] := by
          have hesc : aggregatorEx.should_escalate (9/10) "SAFE" = false := by
            simp [ConsensusAggregator.should_escalate, aggregatorEx]
            constructor
            · norm_num
            · decide
          simp [recordedValidations, hesc]
        refine ⟨by simp [hlist], by norm_num [aggregatorEx], by decide⟩⟩

/-! ## Approval decisions and the Commander (`core/commander/commander.py`) -/

/-- The `approval_decision` contract (fields the pipeline inspects;
`override_*` are present only on force decisions, `action_id` only on
approve/force). -/
structure ApprovalDecision where
  approval_id : String
  approval_request_id : String
  decision_id : String
  decision : String
  admin_identity : String
  reason : String
  issued_at : ℚ
  expires_at : ℚ
  override_circuit_breaker : Option Bool
  override_cooldown : Option Bool
  action_id : Option String
  deriving DecidableEq

structure Action where
  action_id : String
  decision_id : String
  action_type : String
  safety_classification : String
  state : String
  parameters_incident_id : String
  rollback_enabled : Bool
  dry_run : Bool
  approval_id : Option String
  deriving DecidableEq

structure Outcome where
  action_id : String
  status : String
  rollback_executed : Bool
  deriving DecidableEq

/-- The Commander's mutable state: `pending_approvals`, a dict keyed by
`approval_request_id`, as an insertion-ordered association list. -/
structure CommanderState where
  pendingApprovals : List (String × ApprovalDecision)
  deriving DecidableEq

/-- Python `dict[k] = v`: replace in place when the key exists, append
otherwise. -/
def dictSet {α : Type} (l : List (String × α)) (k : String) (v : α) :
    List (String × α) :=
  if l.any (fun e => e.1 == k) then
    l.map (fun e => if e.1 == k then (k, v) else e)
  else
    l ++ [(k, v)]

/-- Python `d.get(k)` / `k in d` followed by `d[k]` on a string-keyed
dict. -/
def lookupDict {α : Type} (l : List (String × α)) (k : String) : Option α :=
  (l.find? (fun e => e.1 == k)).map Prod.snd

/-- `Commander._create_action` (fresh UUID passed as `aid`); requires the
decision's `proposed_action`, which the caller has checked. -/
def Commander.create_action (d : Decision) (pa : ProposedAction) (aid : String) :
    Action :=
  { action_id := aid
    decision_id := d.decision_id
    action_type := pa.action_type
    safety_classification := d.safety_classification
    state := "pending"
    parameters_incident_id := pa.parameters_incident_id
    rollback_enabled := true
    dry_run := false
    approval_id := none }

/-- `Commander.execute_action`: `acknowledge_incident` succeeds; an
unknown action type raises, its (vacuous) rollback succeeds, and the
outcome is `rolled_back`. -/
def Commander.execute_action (a : Action) : Outcome :=
  if a.action_type = "acknowledge_incident" then
    { action_id := a.action_id, status := "succeeded", rollback_executed := false }
  else
    { action_id := a.action_id, status := "rolled_back", rollback_executed := true }

/-- `Commander.handle_approval_decision`: ignore non-approve/force
decisions; drop expired ones; store the rest by `approval_request_id`. -/
def Commander.handle_approval_decision (st : CommanderState)
    (appr : ApprovalDecision) (now : ℚ) : CommanderState :=
  if !(["approve", "force"].contains appr.decision) then st
  else if now ≥ appr.expires_at then st
  else { pendingApprovals := dictSet st.pendingApprovals appr.approval_request_id appr }

/-- `Commander._validate_approval`: find the first stored approval whose
`decision_id` matches; reject (purging the expired entry) when its
`expires_at` has passed. -/
def Commander.validate_approval (st : CommanderState) (decisionId : String)
    (now : ℚ) : Option ApprovalDecision × CommanderState :=
  match st.pendingApprovals.find? (fun e => e.2.decision_id == decisionId) with
  | none => (none, st)
  | some ka =>
    if now ≥ ka.2.expires_at then
      (none,
       { pendingApprovals :=
           st.pendingApprovals.eraseP (fun e => e.2.approval_id == ka.2.approval_id) })
    else
      (some ka.2, st)

/-- `Commander.handle_decision`: returns the outcomes whose publication is
attempted and the updated state.  EXECUTE_SAFE_ACTION re-checks the SAFE
set; REQUEST_APPROVAL requires a valid stored approval, attaches its
`approval_id`, and consumes it after execution. -/
def Commander.handle_decision (policy : Policies) (st : CommanderState)
    (d : Decision) (now : ℚ) (aid : String) : List Outcome × CommanderState :=
  match d.proposed_action with
  | none => ([], st)
  | some pa =>
    if d.decision_type = "EXECUTE_SAFE_ACTION" then
      if !policy.is_safe pa.action_type then ([], st)
      else ([Commander.execute_action (Commander.create_action d pa aid)], st)
    else if d.decision_type = "REQUEST_APPROVAL" then
      let va := Commander.validate_approval st d.decision_id now
      match va.1 with
      | none => ([], va.2)
      | some appr =>
        let action := { Commander.create_action d pa aid with
                          approval_id := some appr.approval_id }
        ([Commander.execute_action action],
         { pendingApprovals :=
             va.2.pendingApprovals.eraseP
               (fun e => e.1 == appr.approval_request_id) })
    else ([], st)

/-- Well-formedness of the Commander's pending-approval dict: every entry
is stored under its approval's `approval_request_id` (as
`handle_approval_decision` stores it) and keys are unique (a dict). -/
def CommanderState.wf (st : CommanderState) : Prop :=
  (∀ e ∈ st.pendingApprovals, e.1 = e.2.approval_request_id)
  ∧ (st.pendingApprovals.map Prod.fst).Nodup

instance (st : CommanderState) : Decidable st.wf := by
  unfold CommanderState.wf
  infer_instance

/-- Number of stored approvals matching a decision id. -/
def matchCount (l : List (String × ApprovalDecision)) (decisionId : String) : ℕ :=
  (l.filter (fun e => e.2.decision_id == decisionId)).length

/-! ## Claim theorem: one-time approval consumption -/

theorem find?_eq_none_of_matchCount_zero (l : List (String × ApprovalDecision))
    (did : String) (h : matchCount l did = 0) :
    l.find? (fun e => e.2.decision_id == did) = none := by
  rw [List.find?_eq_none]
  intro e he hp
  have hmem : e ∈ l.filter (fun e => e.2.decision_id == did) :=
    List.mem_filter.mpr ⟨he, hp⟩
  have : l.filter (fun e => e.2.decision_id == did) = [] :=
    List.length_eq_zero.mp h
  rw [this] at hmem
  exact List.not_mem_nil _ hmem

theorem matchCount_eraseP (l : List (String × ApprovalDecision)) (did : String)
    (k : String) (a : ApprovalDecision)
    (hfind : l.find? (fun e => e.2.decision_id == did) = some (k, a))
    (hwf1 : ∀ e ∈ l, e.1 = e.2.approval_request_id)
    (hwf2 : (l.map Prod.fst).Nodup) :
    matchCount (l.eraseP (fun e => e.1 == a.approval_request_id)) did
      = matchCount l did - 1 := by
  induction l with
  | nil => simp at hfind
  | cons e t ih =>
    by_cases hp : (e.2.decision_id == did) = true
    · simp only [List.find?, hp] at hfind
      have he : e = (k, a) := by exact Option.some.inj hfind
      subst he
      have hk : k = a.approval_request_id := hwf1 (k, a) (List.mem_cons_self _ _)
      have hkey : ((k, a).1 == a.approval_request_id) = true := by
        simpa using hk
      have herase : ((k, a) :: t).eraseP (fun x => x.1 == a.approval_request_id)
          = t := by
        simp [List.eraseP_cons, hkey]
      rw [herase]
      simp [matchCount, List.filter_cons, hp]
    · rw [Bool.not_eq_true] at hp
      simp only [List.find?, hp] at hfind
      have hmem : (k, a) ∈ t := List.mem_of_find?_eq_some hfind
      have hk : k = a.approval_request_id :=
        hwf1 (k, a) (List.mem_cons_of_mem _ hmem)
      have hkmem : k ∈ t.map Prod.fst := List.mem_map.mpr ⟨(k, a), hmem, rfl⟩
      have hne : (e.1 == a.approval_request_id) = false := by
        rw [beq_eq_false_iff_ne]
        intro hcontra
        have : e.1 ∈ t.map Prod.fst := by rw [hcontra, ← hk]; exact hkmem
        exact (List.nodup_cons.mp (by simpa using hwf2)).1 this
      have herase : (e :: t).eraseP (fun x => x.1 == a.approval_request_id)
          = e :: t.eraseP (fun x => x.1 == a.approval_request_id) := by
        simp [List.eraseP_cons, hne]
      rw [herase]
      have ht := ih hfind (fun x hx => hwf1 x (List.mem_cons_of_mem _ hx))
        (List.nodup_cons.mp (by simpa using hwf2)).2
      simp only [matchCount, List.filter_cons, hp] at ht ⊢
      simpa using ht

theorem handle_decision_no_match (policy : Policies) (st : CommanderState)
    (d : Decision) (now : ℚ) (aid : String)
    (hty : d.decision_type = "REQUEST_APPROVAL")
    (hfind : st.pendingApprovals.find? (fun e => e.2.decision_id == d.decision_id)
      = none) :
    (Commander.handle_decision policy st d now aid).1 = [] := by
  unfold Commander.handle_decision
  cases hpa : d.proposed_action with
  | none => rfl
  | some pa =>
    simp [hty, Commander.validate_approval, hfind]

/-- C2: a REQUEST_APPROVAL decision produces an outcome only when a
stored approval matching its `decision_id` is unexpired at consumption
time; the consumed approval is removed, so when it was the only match a
second REQUEST_APPROVAL handling with the same `decision_id` finds no
approval and publishes no outcome. -/
theorem commander_approval_consumed_once
    (policy : Policies) (st : CommanderState) (d : Decision) (now : ℚ) (aid : String)
    (hwf : st.wf) (hty : d.decision_type = "REQUEST_APPROVAL") :
    ((Commander.handle_decision policy st d now aid).1 ≠ [] →
      ∃ e ∈ st.pendingApprovals, e.2.decision_id = d.decision_id ∧
        now < e.2.expires_at)
    ∧ (matchCount st.pendingApprovals d.decision_id = 1 →
       (Commander.handle_decision policy st d now aid).1 ≠ [] →
       ∀ (d2 : Decision) (now2 : ℚ) (aid2 : String),
         d2.decision_type = "REQUEST_APPROVAL" → d2.decision_id = d.decision_id →
         (Commander.handle_decision policy
            (Commander.handle_decision policy st d now aid).2 d2 now2 aid2).1
           = []) := by
  cases hpa : d.proposed_action with
  | none =>
    have hout : (Commander.handle_decision policy st d now aid).1 = [] := by
      simp [Commander.handle_decision, hpa]
    exact ⟨fun hne => absurd hout hne, fun _ hne => absurd hout hne⟩
  | some pa =>
    cases hfind : st.pendingApprovals.find? (fun e => e.2.decision_id == d.decision_id) with
    | none =>
      have hout : (Commander.handle_decision policy st d now aid).1 = [] :=
        handle_decision_no_match policy st d now aid hty hfind
      exact ⟨fun hne => absurd hout hne, fun _ hne => absurd hout hne⟩
    | some ka =>
      obtain ⟨k, a⟩ := ka
      have hmem : (k, a) ∈ st.pendingApprovals := List.mem_of_find?_eq_some hfind
      have hdid : a.decision_id = d.decision_id := by
        have := List.find?_some hfind
        simpa using this
      by_cases hexp : now ≥ a.expires_at
      · have hout : (Commander.handle_decision policy st d now aid).1 = [] := by
          unfold Commander.handle_decision
          simp [hpa, hty, Commander.validate_approval, hfind, hexp]
        exact ⟨fun hne => absurd hout hne, fun _ hne => absurd hout hne⟩
      · have hrun : Commander.handle_decision policy st d now aid =
            ([Commander.execute_action
                { Commander.create_action d pa aid with approval_id := some a.approval_id }],
             { pendingApprovals :=
                 st.pendingApprovals.eraseP
                   (fun e => e.1 == a.approval_request_id) }) := by
          unfold Commander.handle_decision
          simp [hpa, hty, Commander.validate_approval, hfind, hexp]
        constructor
        · intro _
          exact ⟨(k, a), hmem, hdid, lt_of_not_ge hexp⟩
        · intro hone _ d2 now2 aid2 hty2 hdid2
          have hcount : matchCount
              ((Commander.handle_decision policy st d now aid).2.pendingApprovals)
              d.decision_id = 0 := by
            rw [hrun]
            have := matchCount_eraseP st.pendingApprovals d.decision_id k a hfind
              hwf.1 hwf.2
            simpa [hone] using this
          apply handle_decision_no_match policy _ d2 now2 aid2 hty2
          apply find?_eq_none_of_matchCount_zero
          rw [hdid2]
          exact hcount

def approvalDecisionEx : ApprovalDecision :=
  { approval_id := "ap1", approval_request_id := "req1", decision_id := "dec1",
    decision := "approve", admin_identity := "admin", reason := "looks fine",
    issued_at := 0, expires_at := 100, override_circuit_breaker := none,
    override_cooldown := none, action_id := some "act1" }

def commanderStateEx : CommanderState := ⟨[("req1", approvalDecisionEx)]⟩

def requestApprovalDecisionEx : Decision :=
  { decision_id := "dec1", source := "orion-brain", incident_id := "i1",
    decision_type := "REQUEST_APPROVAL", safety_classification := "RISKY",
    requires_approval := true,
    reasoning := "N3 mode: Action restart_service is RISKY and requires ADMIN approval before execution.",
    autonomy_level := "N3",
    proposed_action := some ⟨"restart_service", "i1"⟩ }

/-- Witness for C2 at a concrete state holding one matching, unexpired
approval: the first handling finds it, the second finds nothing and
publishes no outcome. -/
theorem commander_approval_consumed_once_witness :
    (∃ e ∈ commanderStateEx.pendingApprovals,
      e.2.decision_id = requestApprovalDecisionEx.decision_id ∧
      (10 : ℚ) < e.2.expires_at)
    ∧ (Commander.handle_decision policiesEx
        (Commander.handle_decision policiesEx commanderStateEx
          requestApprovalDecisionEx 10 "a1").2
        requestApprovalDecisionEx 10 "a2").1 = [] :=
  ⟨(commander_approval_consumed_once policiesEx commanderStateEx
      requestApprovalDecisionEx 10 "a1" (by decide) rfl).1 (by decide),
   (commander_approval_consumed_once policiesEx commanderStateEx
      requestApprovalDecisionEx 10 "a1" (by decide) rfl).2 (by decide) (by decide)
      requestApprovalDecisionEx 10 "a2" rfl rfl⟩

/-! ## Approval coordinator (`core/approval/approval_coordinator.py`)
and admin identity (`core/approval/admin_identity.py`)

The coordinator's `approval_decision` contract additionally carries a
`source` of the form `orion-approval-<channel>`, a constant of the
channel; like `version`/`timestamp` it is elided from the structure.
Each admin operation returns the produced decision (`none` on
rejection), the updated state, and the list of requests escalated by
`_escalate_timeout` during the call. -/

structure AdminIdentityCfg where
  telegram_chat_id : Option String
  cli_identity : Option String
  deriving DecidableEq

/-- `AdminIdentity.verify_telegram`: configured and equal. -/
def AdminIdentityCfg.verify_telegram (cfg : AdminIdentityCfg) (chatId : String) :
    Bool :=
  match cfg.telegram_chat_id with
  | none => false
  | some admin => chatId == admin

/-- `AdminIdentity.verify_cli`. -/
def AdminIdentityCfg.verify_cli (cfg : AdminIdentityCfg) (identity : String) :
    Bool :=
  match cfg.cli_identity with
  | none => false
  | some admin => identity == admin

/-- The channel dispatch performed identically at the top of `approve`,
`deny` and `force` (unknown channels are rejected). -/
def checkIdentity (cfg : AdminIdentityCfg) (channel adminId : String) : Bool :=
  if channel == "telegram" then cfg.verify_telegram adminId
  else if channel == "cli" then cfg.verify_cli adminId
  else false

structure CoordinatorState where
  pending : List (String × ApprovalRequest)
  decisions : List (String × ApprovalDecision)
  deriving DecidableEq

/-- Python `approval_timeout or self.default_approval_timeout` (`None`
and `0` both fall back to the default). -/
def pyOrTimeout (approvalTimeout : Option Int) (defaultTimeout : Int) : Int :=
  match approvalTimeout with
  | none => defaultTimeout
  | some t => if t != 0 then t else defaultTimeout

/-- `ApprovalCoordinator._create_approval_decision` (fresh UUIDs passed as
`approvalId` / `actionId`): overrides only on force, `action_id` only on
approve/force. -/
def Coordinator.create_approval_decision (request : ApprovalRequest)
    (decisionType adminId reason : String) (approvalTimeout : Int) (now : ℚ)
    (approvalId actionId : String) (overrideCB overrideCooldown : Bool) :
    ApprovalDecision :=
  { approval_id := approvalId
    approval_request_id := request.approval_request_id
    decision_id := request.decision_id
    decision := decisionType
    admin_identity := adminId
    reason := reason
    issued_at := now
    expires_at := now + (approvalTimeout : ℚ)
    override_circuit_breaker :=
      if decisionType = "force" then some overrideCB else none
    override_cooldown :=
      if decisionType = "force" then some overrideCooldown else none
    action_id :=
      if ["approve", "force"].contains decisionType then some actionId else none }

/-- `ApprovalCoordinator.handle_approval_request`: escalate and drop a
request already expired at arrival, otherwise store it pending. -/
def Coordinator.handle_approval_request (st : CoordinatorState)
    (request : ApprovalRequest) (now : ℚ) :
    CoordinatorState × List String :=
  if now ≥ request.expires_at then (st, [request.approval_request_id])
  else ({ st with
          pending := dictSet st.pending request.approval_request_id request }, [])

/-- `ApprovalCoordinator.approve`: identity check, pending lookup, expiry
check (escalate and purge), reason check, then create, store, purge and
publish the approve decision. -/
def Coordinator.approve (cfg : AdminIdentityCfg) (st : CoordinatorState)
    (approvalRequestId adminId channel reason : String)
    (approvalTimeout : Option Int) (defaultTimeout : Int) (now : ℚ)
    (approvalId actionId : String) :
    Option ApprovalDecision × CoordinatorState × List String :=
  if !(checkIdentity cfg channel adminId) then (none, st, [])
  else
    match lookupDict st.pending approvalRequestId with
    | none => (none, st, [])
    | some request =>
      if now ≥ request.expires_at then
        (none,
         { st with pending := st.pending.eraseP (fun e => e.1 == approvalRequestId) },
         [approvalRequestId])
      else if reason == "" || (strStrip reason).length == 0 then
        (none, st, [])
      else
        let timeout := pyOrTimeout approvalTimeout defaultTimeout
        let decision := Coordinator.create_approval_decision request "approve"
          adminId reason timeout now approvalId actionId false false
        (some decision,
         { pending := st.pending.eraseP (fun e => e.1 == approvalRequestId)
           decisions := dictSet st.decisions approvalRequestId decision },
         [])

/-- `ApprovalCoordinator.force`: identity check, pending lookup, a
stronger reason check (at least 10 characters stripped) — and no expiry
check — then create, store, purge and publish the force decision with
the override flags. -/
def Coordinator.force (cfg : AdminIdentityCfg) (st : CoordinatorState)
    (approvalRequestId adminId channel reason : String)
    (overrideCB overrideCooldown : Bool)
    (approvalTimeout : Option Int) (defaultTimeout : Int) (now : ℚ)
    (approvalId actionId : String) :
    Option ApprovalDecision × CoordinatorState × List String :=
  if !(checkIdentity cfg channel adminId) then (none, st, [])
  else
    match lookupDict st.pending approvalRequestId with
    | none => (none, st, [])
    | some request =>
      if reason == "" || (strStrip reason).length < 10 then
        (none, st, [])
      else
        let timeout := pyOrTimeout approvalTimeout defaultTimeout
        let decision := Coordinator.create_approval_decision request "force"
          adminId reason timeout now approvalId actionId overrideCB overrideCooldown
        (some decision,
         { pending := st.pending.eraseP (fun e => e.1 == approvalRequestId)
           decisions := dictSet st.decisions approvalRequestId decision },
         [])

/-- `ApprovalCoordinator.check_expired_approvals` (the periodic sweep):
escalate and remove every pending request whose `expires_at` has
passed. -/
def Coordinator.check_expired_approvals (st : CoordinatorState) (now : ℚ) :
    CoordinatorState × List String :=
  ({ st with pending := st.pending.filter (fun e => decide (now < e.2.expires_at)) },
   (st.pending.filter (fun e => decide (now ≥ e.2.expires_at))).map Prod.fst)

/-! ## Claim theorems: approval expiry on admin operations -/

def adminCfgEx : AdminIdentityCfg :=
  { telegram_chat_id := none, cli_identity := some "root" }

def pendingRequestEx : ApprovalRequest :=
  { approval_request_id := "req1", source := "orion-brain", decision_id := "dec1",
    action_type := "restart_service", risk_level := "RISKY",
    requested_action_action_type := "restart_service",
    requested_action_parameters_incident_id := "i1",
    requested_action_reasoning := "needs approval", expires_at := 50,
    incident_id := "i1" }

def coordinatorStateEx : CoordinatorState := ⟨[("req1", pendingRequestEx)], []⟩

/-- Counterexample to C3 as stated: a `force` on a pending request whose
`expires_at` (50) already passed (now = 60) does not return nothing — it
returns an approval decision, and escalates nothing. -/
theorem force_ignores_expiry_counterexample :
    (60 : ℚ) ≥ pendingRequestEx.expires_at
    ∧ (Coordinator.force adminCfgEx coordinatorStateEx "req1" "root" "cli"
        "emergency maintenance window" false false none 300 60 "ap1" "act1").1.isSome
        = true
    ∧ (Coordinator.force adminCfgEx coordinatorStateEx "req1" "root" "cli"
        "emergency maintenance window" false false none 300 60 "ap1" "act1").2.2
        = [] := by
  refine ⟨by norm_num [pendingRequestEx], ?_, ?_⟩ <;> decide

/-- C3 (amended): for `approve`, an operation on a pending request at or
past its `expires_at` escalates the timeout, purges the request and
returns nothing; `force` performs no expiry check at all — with a valid
identity and a stripped reason of at least 10 characters it creates,
stores and returns a force decision (escalating nothing) regardless of
the request's `expires_at`. -/
theorem approve_expiry_escalates_force_skips_expiry
    (cfg : AdminIdentityCfg) (st : CoordinatorState)
    (requestId adminId channel reason : String) (request : ApprovalRequest)
    (approvalTimeout : Option Int) (defaultTimeout : Int) (now : ℚ)
    (approvalId actionId : String) (overrideCB overrideCooldown : Bool)
    (hid : checkIdentity cfg channel adminId = true)
    (hlook : lookupDict st.pending requestId = some request) :
    (now ≥ request.expires_at →
      Coordinator.approve cfg st requestId adminId channel reason
          approvalTimeout defaultTimeout now approvalId actionId
        = (none,
           { st with pending := st.pending.eraseP (fun e => e.1 == requestId) },
           [requestId]))
    ∧ ((reason == "") = false → ¬ ((strStrip reason).length < 10) →
      Coordinator.force cfg st requestId adminId channel reason
          overrideCB overrideCooldown approvalTimeout defaultTimeout now
          approvalId actionId
        = (some (Coordinator.create_approval_decision request "force" adminId
            reason (pyOrTimeout approvalTimeout defaultTimeout) now approvalId
            actionId overrideCB overrideCooldown),
           { pending := st.pending.eraseP (fun e => e.1 == requestId)
             decisions := dictSet st.decisions requestId
               (Coordinator.create_approval_decision request "force" adminId
                 reason (pyOrTimeout approvalTimeout defaultTimeout) now
                 approvalId actionId overrideCB overrideCooldown) },
           [])) := by
  constructor
  · intro hexp
    unfold Coordinator.approve
    rw [hid]
    simp only [Bool.not_true, Bool.false_eq_true, if_false, hlook]
    rw [if_pos hexp]
  · intro hres hlen
    unfold Coordinator.force
    rw [hid]
    simp only [Bool.not_true, Bool.false_eq_true, if_false, hlook]
    rw [if_neg (by simp [hres, hlen])]

/-- Witness for the amended C3: at the concrete expired request,
`approve` at time 60 escalates and returns nothing, while `force`
returns a decision. -/
theorem approve_expiry_escalates_force_skips_expiry_witness :
    (Coordinator.approve adminCfgEx coordinatorStateEx "req1" "root" "cli"
        "late but fine" none 300 60 "ap1" "act1"
      = (none,
         { coordinatorStateEx with
             pending := coordinatorStateEx.pending.eraseP (fun e => e.1 == "req1") },
         ["req1"]))
    ∧ (Coordinator.force adminCfgEx coordinatorStateEx "req1" "root" "cli"
        "emergency maintenance window" false false none 300 60 "ap1" "act1"
      = (some (Coordinator.create_approval_decision pendingRequestEx "force" "root"
          "emergency maintenance window" (pyOrTimeout none 300) 60 "ap1" "act1"
          false false),
         { pending := coordinatorStateEx.pending.eraseP (fun e => e.1 == "req1")
           decisions := dictSet coordinatorStateEx.decisions "req1"
             (Coordinator.create_approval_decision pendingRequestEx "force" "root"
               "emergency maintenance window" (pyOrTimeout none 300) 60 "ap1"
               "act1" false false) },
         [])) :=
  ⟨(approve_expiry_escalates_force_skips_expiry adminCfgEx coordinatorStateEx
      "req1" "root" "cli" "late but fine" pendingRequestEx none 300 60 "ap1"
      "act1" false false rfl rfl).1 (by norm_num [pendingRequestEx]),
   (approve_expiry_escalates_force_skips_expiry adminCfgEx coordinatorStateEx
      "req1" "root" "cli" "emergency maintenance window" pendingRequestEx none
      300 60 "ap1" "act1" false false rfl rfl).2 (by decide) (by decide)⟩

/-! ## Guardian (`core/guardian/guardian.py`) -/

structure Event where
  event_id : String
  event_type : String
  source : String
  severity : String
  timestamp : ℚ
  service_name : Option String
  resource_type : Option String
  deriving DecidableEq

/-- `Guardian._calculate_fingerprint`.  The code hashes
`str(sorted(fields))` with SHA-256 truncated to 16 hex characters; the
model keeps the injective pre-image encoding (the fields in the same
sorted key order), so fingerprint equality corresponds to equality of
the fingerprinted fields, ignoring hash collisions. -/
def Guardian.calculate_fingerprint (e : Event) : String :=
  "event_type=" ++ e.event_type ++ ";" ++
  (match e.resource_type with
   | some r => "resource_type=" ++ r ++ ";"
   | none => "") ++
  (match e.service_name with
   | some s => "service_name=" ++ s ++ ";"
   | none => "") ++
  "severity=" ++ e.severity ++ ";source=" ++ e.source

/-- `Guardian._determine_incident_type`: a priority mapping over the set
of event types of all correlated events. -/
def Guardian.determine_incident_type (events : List Event) : String :=
  let eventTypes := events.map (fun e => e.event_type)
  if eventTypes.contains "service_down" then "service_outage"
  else if eventTypes.contains "metric_threshold_exceeded" then "metric_anomaly"
  else if eventTypes.contains "edge_device_offline" then "edge_device_failure"
  else "correlation_detected"

/-- `Guardian._determine_severity`: never escalate beyond observed data. -/
def Guardian.determine_severity (events : List Event) : String :=
  let severities := events.map (fun e => e.severity)
  if severities.contains "critical" then "critical"
  else if severities.contains "error" then "high"
  else if severities.contains "warning" then "medium"
  else "low"

/-- `Guardian._should_create_incident`: any non-info event. -/
def Guardian.should_create_incident (events : List Event) : Bool :=
  events.any (fun e => ["warning", "error", "critical"].contains e.severity)

/-- `Guardian._create_incident` (fresh UUID passed as `iid`). -/
def Guardian.create_incident (events : List Event) (wstart wend : ℚ)
    (iid : String) : Incident :=
  { incident_id := iid
    incident_type := Guardian.determine_incident_type events
    severity := Guardian.determine_severity events
    event_ids := events.map (fun e => e.event_id)
    window_start := wstart
    window_end := wend
    state := "open"
    description := "Correlated " ++ toString events.length ++ " event(s): " ++
      Guardian.determine_incident_type events }

structure GuardianState where
  eventBuffer : List Event
  incidentFingerprints : List (String × String)
  deriving DecidableEq

/-- The buffered events within the correlation window (`recent_events`
in `correlate_events`). -/
def Guardian.recent_events (st : GuardianState) (correlationWindow : ℚ)
    (now : ℚ) : List Event :=
  st.eventBuffer.filter
    (fun e => decide (e.timestamp ≥ now - correlationWindow))

/-- `Guardian.correlate_events`: no incident without a non-info buffered
event; the candidate is the window-filtered buffer; its head event's
fingerprint deduplicates; otherwise create and record the incident. -/
def Guardian.correlate_events (st : GuardianState) (correlationWindow : ℚ)
    (now : ℚ) (iid : String) : Option Incident × GuardianState :=
  if !(Guardian.should_create_incident st.eventBuffer) then (none, st)
  else
    match Guardian.recent_events st correlationWindow now with
    | [] => (none, st)
    | hEv :: rest =>
      let fingerprint := Guardian.calculate_fingerprint hEv
      if st.incidentFingerprints.any (fun e => e.1 == fingerprint) then (none, st)
      else
        let incident := Guardian.create_incident (hEv :: rest)
          (now - correlationWindow) now iid
        (some incident,
         { st with incidentFingerprints :=
             dictSet st.incidentFingerprints fingerprint iid })

/-- `Guardian.handle_event`: append to the bounded buffer (most recent
100) and attempt correlation; a produced incident is published. -/
def Guardian.handle_event (st : GuardianState) (e : Event)
    (correlationWindow : ℚ) (now : ℚ) (iid : String) :
    Option Incident × GuardianState :=
  let buffer := st.eventBuffer ++ [e]
  let buffer := if buffer.length > 100 then buffer.drop (buffer.length - 100)
    else buffer
  Guardian.correlate_events { st with eventBuffer := buffer }
    correlationWindow now iid

/-! ## Claim theorems: incident type determination -/

/-- Modelled from the claim under scrutiny (C8), not from the source: a
fixed mapping on the head event's `event_type` alone. -/
def headEventTypeMappingSpec (t : String) : String :=
  if t = "service_down" then "service_outage"
  else if t = "metric_threshold_exceeded" then "metric_anomaly"
  else if t = "edge_device_offline" then "edge_device_failure"
  else "correlation_detected"

def eventEx1 : Event :=
  { event_id := "e1", event_type := "edge_device_offline", source := "watcher-1",
    severity := "warning", timestamp := 100, service_name := none,
    resource_type := none }

def eventEx2 : Event :=
  { event_id := "e2", event_type := "service_down", source := "watcher-2",
    severity := "info", timestamp := 100, service_name := none,
    resource_type := none }

def guardianStateEx : GuardianState := ⟨[eventEx1, eventEx2], []⟩

/-- Counterexample to C8 as stated: with head event
`edge_device_offline` and a second in-window `service_down` event, the
emitted incident's type is `service_outage`, not the head event's
mapping `edge_device_failure`. -/
theorem recent_events_guardianStateEx :
    Guardian.recent_events guardianStateEx 60 100 = [eventEx1, eventEx2] := by
  unfold Guardian.recent_events guardianStateEx
  norm_num [eventEx1, eventEx2, List.filter]

theorem incident_type_head_mapping_counterexample :
    ((Guardian.correlate_events guardianStateEx 60 100 "i1").1.map
        (fun i => i.incident_type)) = some "service_outage"
    ∧ ((Guardian.recent_events guardianStateEx 60 100).head?.map
        (fun e => e.event_type)) = some "edge_device_offline"
    ∧ headEventTypeMappingSpec "edge_device_offline" = "edge_device_failure"
    ∧ ("service_outage" : String) ≠ "edge_device_failure" := by
  refine ⟨?_, ?_, by decide, by decide⟩
  · unfold Guardian.correlate_events
    rw [recent_events_guardianStateEx]
    decide
  · rw [recent_events_guardianStateEx]
    decide

/-- C8 (amended): every incident the Guardian emits takes its
`incident_type` from the fixed priority mapping over the event types of
all events of the correlation candidate — `service_outage` if any is
`service_down`, else `metric_anomaly` if any is
`metric_threshold_exceeded`, else `edge_device_failure` if any is
`edge_device_offline`, else `correlation_detected` — not from the head
event alone. -/
theorem incident_type_priority_over_all_events
    (st : GuardianState) (correlationWindow : ℚ) (now : ℚ) (iid : String)
    (inc : Incident) (st' : GuardianState)
    (h : Guardian.correlate_events st correlationWindow now iid = (some inc, st')) :
    inc.incident_type =
      (let types := (Guardian.recent_events st correlationWindow now).map
        (fun e => e.event_type)
       if types.contains "service_down" then "service_outage"
       else if types.contains "metric_threshold_exceeded" then "metric_anomaly"
       else if types.contains "edge_device_offline" then "edge_device_failure"
       else "correlation_detected") := by
  unfold Guardian.correlate_events at h
  by_cases hs : Guardian.should_create_incident st.eventBuffer
  · rw [hs] at h
    cases hm : Guardian.recent_events st correlationWindow now with
    | nil => rw [hm] at h; simp at h
    | cons hEv rest =>
      rw [hm] at h
      by_cases hf : st.incidentFingerprints.any
          (fun e => e.1 == Guardian.calculate_fingerprint hEv)
      · simp only [Bool.not_true, Bool.false_eq_true, if_false, hf, if_true] at h
        exact absurd (congrArg Prod.fst h) (by simp)
      · simp only [Bool.not_true, Bool.false_eq_true, if_false,
          Bool.eq_false_iff.mpr hf, if_neg] at h
        have hinc : inc = Guardian.create_incident (hEv :: rest)
            (now - correlationWindow) now iid := by
          have := congrArg Prod.fst h
          simpa using this.symm
        rw [hinc]
        simp only [hm]
        simp [Guardian.create_incident, Guardian.determine_incident_type]
  · rw [Bool.eq_false_iff.mpr hs] at h
    simp at h

/-- Witness for the amended C8 at the concrete two-event buffer. -/
theorem incident_type_priority_over_all_events_witness :
    (Guardian.create_incident [eventEx1, eventEx2] ((100 : ℚ) - 60) 100
        "i1").incident_type =
      (let types := (Guardian.recent_events guardianStateEx 60 100).map
        (fun e => e.event_type)
       if types.contains "service_down" then "service_outage"
       else if types.contains "metric_threshold_exceeded" then "metric_anomaly"
       else if types.contains "edge_device_offline" then "edge_device_failure"
       else "correlation_detected") := by
  have hcorr : Guardian.correlate_events guardianStateEx 60 100 "i1" =
      (some (Guardian.create_incident [eventEx1, eventEx2] ((100 : ℚ) - 60) 100 "i1"),
       { guardianStateEx with
           incidentFingerprints := dictSet guardianStateEx.incidentFingerprints
             (Guardian.calculate_fingerprint eventEx1) "i1" }) := by
    unfold Guardian.correlate_events
    rw [recent_events_guardianStateEx]
    rfl
  exact incident_type_priority_over_all_events guardianStateEx 60 100 "i1" _ _ hcorr

end Orion
